import Mathlib

/-!
Shallow embedding of the `empty-box` crate (src/src/lib.rs).

The crate exposes one type, `EmptyBox<T>` — a `Box<T>` whose contents have
been moved out — with `EmptyBox::take`, `EmptyBox::put`, and a `Drop`
implementation.  We model the machine state a program using the crate can
observe: a heap mapping addresses to payload bits, together with counters
for allocations, deallocations, and runs of `T`'s destructor (the
`DropCounter` pattern used by the crate's own tests).  Each Rust primitive
the source uses (`Box::new`, `Box::into_raw`, `Box::from_raw`, `ptr::read`,
`ptr::write`, `mem::forget`, moving out of a box, dropping an owned value,
dropping a full `Box`) is translated as a state transformer, and the three
source functions are composed from those primitives exactly as the source
composes them.
-/

/-- Machine state for programs manipulating heap allocations of payload
type `T`.  `heap a = some v` means address `a` is an allocation whose bytes
currently hold the representation of `v`; `heap a = none` means `a` is not
allocated.  `next` is the next fresh address the allocator hands out.
`allocs`, `deallocs`, and `drops` count heap allocations, heap
deallocations, and invocations of `T`'s destructor respectively. -/
structure St (T : Type) where
  heap : Nat → Option T
  next : Nat
  allocs : Nat
  deallocs : Nat
  drops : Nat

variable {T : Type}

/-- Initial machine state: nothing allocated, all counters zero. -/
def emptySt (T : Type) : St T :=
  { heap := fun _ => none, next := 0, allocs := 0, deallocs := 0, drops := 0 }

/-- Rust `Box::new(v)`: allocate a fresh address, store `v` there, and
return the new box (modelled by its address) together with the new state. -/
def boxNew (v : T) (s : St T) : Nat × St T :=
  (s.next,
   { heap := fun a => if a = s.next then some v else s.heap a
     next := s.next + 1
     allocs := s.allocs + 1
     deallocs := s.deallocs
     drops := s.drops })

/-- Rust `Box::into_raw(bx)`: relinquish the box's ownership and expose its
raw pointer.  No observable state change. -/
def boxIntoRaw (bx : Nat) : Nat := bx

/-- Rust `Box::from_raw(p)`: reconstruct an owning box over the allocation
at `p`.  No observable state change. -/
def boxFromRaw (p : Nat) : Nat := p

/-- Rust `ptr::read(p)`: copy the value out of the memory at `p` by value,
leaving the bytes at `p` untouched.  Returns `none` only if `p` is not an
allocated address (in Rust that use would be undefined; the embedding makes
the validity requirement explicit). -/
def ptrRead (p : Nat) (s : St T) : Option T := s.heap p

/-- Rust `ptr::write(p, v)`: overwrite the memory at `p` with `v` without
reading or dropping the old contents. -/
def ptrWrite (p : Nat) (v : T) (s : St T) : St T :=
  { s with heap := fun a => if a = p then some v else s.heap a }

/-- Running `T`'s destructor once (what `Drop::drop` of the payload does;
the tests' `DropCounter` increments a shared `Cell` exactly here). -/
def runDestructor (s : St T) : St T := { s with drops := s.drops + 1 }

/-- Rust `mem::drop(v)` on an owned value of type `T`: runs its
destructor. -/
def dropValue (v : T) (s : St T) : St T := runDestructor s

/-- Releasing a `Box` allocation back to the allocator (the deallocation
half of `Box`'s drop glue), without touching the payload. -/
def boxDealloc (p : Nat) (s : St T) : St T :=
  { s with heap := fun a => if a = p then none else s.heap a
           deallocs := s.deallocs + 1 }

/-- Dropping a full `Box<T>` at address `p`: run the payload's destructor,
then release the allocation. -/
def boxDrop (p : Nat) (s : St T) : St T := boxDealloc p (runDestructor s)

/-- Rust `let inner = *boxed` on a `Box<T>` at `p`: move the payload out of
the box by value; the box's allocation is released without running the
payload's destructor (the payload is now owned by `inner`). -/
def boxUnwrapMove (p : Nat) (s : St T) : Option T × St T :=
  (s.heap p, boxDealloc p s)

/-- Rust `mem::forget(v)`: take ownership of `v` and do nothing — in
particular, run no destructor. -/
def memForget {α : Type} (v : α) (s : St T) : St T := s

/-- The crate's `EmptyBox<T>` struct (src/src/lib.rs:38-40): a raw pointer
to an allocation sized for `T` whose contents have been moved out. -/
structure EmptyBox (T : Type) where
  ptr : Nat

/-- Source `EmptyBox::take` (src/src/lib.rs:55-59):
`let ptr = Box::into_raw(bx); let t = ptr::read(ptr); (t, EmptyBox { ptr })`.
The state is returned unchanged because neither primitive mutates it. -/
def EmptyBox.take (bx : Nat) (s : St T) : Option (T × EmptyBox T × St T) :=
  let p := boxIntoRaw bx
  match ptrRead p s with
  | some t => some (t, ⟨p⟩, s)
  | none => none

/-- Source `impl Drop for EmptyBox<T>` (src/src/lib.rs:43-49):
`let boxed = Box::from_raw(self.ptr); let inner = *boxed; mem::forget(inner)`.
The allocation is released by the box's own drop glue, and the moved-out
bytes are forgotten, so no `T` destructor runs. -/
def EmptyBox.drop (e : EmptyBox T) (s : St T) : St T :=
  let boxed := boxFromRaw e.ptr
  let r := boxUnwrapMove boxed s
  memForget r.1 r.2

/-- Source `EmptyBox::put` (src/src/lib.rs:64-72):
`let ptr = self.ptr; mem::forget(self); ptr::write(ptr, t); Box::from_raw(ptr)`.
Because `self` is forgotten, `EmptyBox`'s drop handler never runs on this
path. -/
def EmptyBox.put (e : EmptyBox T) (t : T) (s : St T) : Nat × St T :=
  let p := e.ptr
  let s1 := memForget e s
  let s2 := ptrWrite p t s1
  (boxFromRaw p, s2)

/-- Observable behaviour of the box at address `p`: the value it
dereferences to, and — were it dropped right now — how many destructor
runs and deallocations that drop would perform and whether it would leave
the address unallocated. -/
def boxObs (p : Nat) (s : St T) : Option T × Nat × Nat × Bool :=
  (s.heap p,
   (boxDrop p s).drops - s.drops,
   (boxDrop p s).deallocs - s.deallocs,
   ((boxDrop p s).heap p).isNone)

/-- Scenario for the no-double-destruction property: box `v`, take it back
out, drop the extracted value, then drop the emptied box. -/
def takeDropScenario (v : T) (s : St T) : Option (St T) :=
  let r := boxNew v s
  match EmptyBox.take r.1 r.2 with
  | some (t, e, s1) => some (EmptyBox.drop e (dropValue t s1))
  | none => none

/-- Scenario mirroring the crate's `two_drop` test (src/src/lib.rs:127-138):
box `a`, take it out, drop the extracted value, put `b` into the emptied
box, then drop the resulting box. -/
def twoDropScenario (a b : T) (s : St T) : Option (St T) :=
  let r := boxNew a s
  match EmptyBox.take r.1 r.2 with
  | some (dc, e, s1) =>
      let r2 := e.put b (dropValue dc s1)
      some (boxDrop r2.1 r2.2)
  | none => none

/-- Scenario from the crate's doc example: box `"Hello!"`, take it out, put
`"Objectively superior string!"` in, and return the extracted string
together with what the resulting box dereferences to. -/
def swapScenario (s : St String) : Option (String × Option String) :=
  let r := boxNew "Hello!" s
  match EmptyBox.take r.1 r.2 with
  | some (str, e, s1) =>
      let r2 := e.put "Objectively superior string!" s1
      some (str, r2.2.heap r2.1)
  | none => none

/-- Complete lifecycle, put branch: box `v`, take it out, put `w` back,
drop the resulting box.  (The extracted value is kept alive, so its
destructor does not run here.) -/
def lifecyclePut (v w : T) (s : St T) : Option (St T) :=
  let r := boxNew v s
  match EmptyBox.take r.1 r.2 with
  | some (_, e, s1) =>
      let r2 := e.put w s1
      some (boxDrop r2.1 r2.2)
  | none => none

/-- Complete lifecycle, drop branch: box `v`, take it out, drop the emptied
box without putting anything back. -/
def lifecycleDrop (v : T) (s : St T) : Option (St T) :=
  let r := boxNew v s
  match EmptyBox.take r.1 r.2 with
  | some (_, e, s1) => some (EmptyBox.drop e s1)
  | none => none

/-- Helper: taking from a box holding `v` yields `v`, an `EmptyBox` over the
same address, and the unchanged state. -/
theorem take_eq (p : Nat) (v : T) (s : St T) (h : s.heap p = some v) :
    EmptyBox.take p s = some (v, ⟨p⟩, s) := by
  simp [EmptyBox.take, ptrRead, boxIntoRaw, h]

/-- Helper: a freshly boxed value can always be taken back out. -/
theorem take_boxNew (v : T) (s : St T) :
    EmptyBox.take (boxNew v s).1 (boxNew v s).2 =
      some (v, ⟨s.next⟩, (boxNew v s).2) := by
  apply take_eq
  simp [boxNew]

/-- Helper: dropping an `EmptyBox` never runs `T`'s destructor. -/
theorem emptyBox_drop_drops (e : EmptyBox T) (s : St T) :
    (EmptyBox.drop e s).drops = s.drops := rfl

/-- C1: dropping an `EmptyBox<T>` without calling `put` releases the heap
allocation through the very same deallocation path a `Box<T>` would use
(`boxDealloc`), frees exactly one allocation, leaves the address
unallocated, and runs no `T` destructor: the destruction count is
unchanged. -/
theorem emptyBox_drop_frees_without_destructor (e : EmptyBox T) (s : St T) :
    EmptyBox.drop e s = boxDealloc e.ptr s ∧
    (EmptyBox.drop e s).drops = s.drops ∧
    (EmptyBox.drop e s).deallocs = s.deallocs + 1 ∧
    (EmptyBox.drop e s).heap e.ptr = none := by
  refine ⟨rfl, rfl, rfl, ?_⟩
  simp [EmptyBox.drop, boxUnwrapMove, boxDealloc, memForget, boxFromRaw]

/-- C2: boxing `v`, taking it out as `(v, empty)`, dropping the extracted
`v` (one destructor run), and then dropping `empty` performs no further
destruction: the total destruction count for the whole scenario is exactly
the initial count plus 1, and it is already at plus 1 before `empty` is
dropped. -/
theorem take_then_drop_value_destructs_once (v : T) (s : St T) :
    ∃ e s1, EmptyBox.take (boxNew v s).1 (boxNew v s).2 = some (v, e, s1) ∧
      (dropValue v s1).drops = s.drops + 1 ∧
      takeDropScenario v s = some (EmptyBox.drop e (dropValue v s1)) ∧
      (EmptyBox.drop e (dropValue v s1)).drops = s.drops + 1 := by
  refine ⟨⟨s.next⟩, (boxNew v s).2, take_boxNew v s, rfl, ?_, rfl⟩
  simp [takeDropScenario, take_boxNew v s]

/-- C3: the box returned by `put(v)` is observationally identical to a
freshly allocated `Box::new(v)` from any state: it dereferences to `v`, and
dropping it would run exactly one destructor, perform exactly one
deallocation, and leave its address unallocated. -/
theorem put_box_behaves_like_boxNew (e : EmptyBox T) (v : T) (s s0 : St T) :
    boxObs (e.put v s).1 (e.put v s).2 = boxObs (boxNew v s0).1 (boxNew v s0).2 ∧
    boxObs (e.put v s).1 (e.put v s).2 = (some v, 1, 1, true) := by
  constructor <;>
    simp [boxObs, EmptyBox.put, boxNew, boxDrop, boxDealloc, runDestructor,
          ptrWrite, memForget, boxFromRaw]

/-- C4: taking from a box holding `v` returns exactly `v` together with an
`EmptyBox` over the same address, and the machine state is returned
entirely unchanged — hence `take` performs no allocation, no deallocation,
and runs no destructor. -/
theorem take_returns_value_same_address_no_effects (p : Nat) (v : T)
    (s : St T) (h : s.heap p = some v) :
    EmptyBox.take p s = some (v, ⟨p⟩, s) :=
  take_eq p v s h

/-- Witness for C4 at a concrete input. -/
theorem take_returns_value_same_address_no_effects_witness :
    (boxNew 5 (emptySt Nat)).2.heap 0 = some 5 ∧
    EmptyBox.take 0 (boxNew 5 (emptySt Nat)).2 =
      some (5, ⟨0⟩, (boxNew 5 (emptySt Nat)).2) :=
  ⟨rfl, take_returns_value_same_address_no_effects 0 5 (boxNew 5 (emptySt Nat)).2 rfl⟩

/-- C5: taking the value out of a box at address `p` and putting `w` back
into the resulting `EmptyBox` yields a box at the very same address `p`,
with no allocation and no deallocation performed by either step. -/
theorem take_put_round_trip_reuses_allocation (p : Nat) (v w : T) (s : St T)
    (h : s.heap p = some v) :
    ∃ (e : EmptyBox T) (s1 : St T), EmptyBox.take p s = some (v, e, s1) ∧
      s1.allocs = s.allocs ∧ s1.deallocs = s.deallocs ∧
      (e.put w s1).1 = p ∧
      (e.put w s1).2.allocs = s.allocs ∧
      (e.put w s1).2.deallocs = s.deallocs :=
  ⟨⟨p⟩, s, take_eq p v s h, rfl, rfl, rfl, rfl, rfl⟩

/-- Witness for C5 at a concrete input. -/
theorem take_put_round_trip_reuses_allocation_witness :
    (boxNew 5 (emptySt Nat)).2.heap 0 = some 5 ∧
    (∃ (e : EmptyBox Nat) (s1 : St Nat),
      EmptyBox.take 0 (boxNew 5 (emptySt Nat)).2 = some (5, e, s1) ∧
      s1.allocs = (boxNew 5 (emptySt Nat)).2.allocs ∧
      s1.deallocs = (boxNew 5 (emptySt Nat)).2.deallocs ∧
      (e.put 7 s1).1 = 0 ∧
      (e.put 7 s1).2.allocs = (boxNew 5 (emptySt Nat)).2.allocs ∧
      (e.put 7 s1).2.deallocs = (boxNew 5 (emptySt Nat)).2.deallocs) :=
  ⟨rfl, take_put_round_trip_reuses_allocation 0 5 7 (boxNew 5 (emptySt Nat)).2 rfl⟩

/-- C6: the `two_drop` scenario — box a counting value, take it out, drop
the extracted value, put a second counting value in via `put`, then drop
the resulting box — records exactly 2 destructor runs in total. -/
theorem two_drop_scenario_counts_two (a b : T) (s : St T) :
    Option.map St.drops (twoDropScenario a b s) = some (s.drops + 2) := by
  simp only [twoDropScenario, take_boxNew a s]
  simp [boxDrop, boxDealloc, runDestructor, dropValue, EmptyBox.put,
        ptrWrite, memForget, boxFromRaw, boxNew]

/-- C7: starting from a box holding `"Hello!"`, `take` extracts exactly
`"Hello!"`, and `put "Objectively superior string!"` yields a box that
dereferences to `"Objectively superior string!"`. -/
theorem swap_scenario_values (s : St String) :
    swapScenario s = some ("Hello!", some "Objectively superior string!") := by
  simp [swapScenario, take_boxNew, EmptyBox.put, ptrWrite, memForget, boxFromRaw]

/-- C8: both operations are total over well-typed inputs — `take` succeeds
on every valid box (an allocated address), and `put` always succeeds,
producing a box that is valid (allocated, holding the installed value) in
the resulting state; neither has any other failure branch. -/
theorem take_put_total (p : Nat) (s : St T) (e : EmptyBox T) (t : T)
    (s2 : St T) (h : (s.heap p).isSome) :
    (EmptyBox.take p s).isSome ∧
    (e.put t s2).2.heap (e.put t s2).1 = some t := by
  constructor
  · obtain ⟨v, hv⟩ := Option.isSome_iff_exists.mp h
    simp [take_eq p v s hv]
  · simp [EmptyBox.put, ptrWrite, memForget, boxFromRaw]

/-- Witness for C8 at a concrete input. -/
theorem take_put_total_witness :
    ((boxNew 5 (emptySt Nat)).2.heap 0).isSome ∧
    ((EmptyBox.take 0 (boxNew 5 (emptySt Nat)).2).isSome ∧
      ((EmptyBox.put ⟨0⟩ 7 (boxNew 5 (emptySt Nat)).2).2.heap
        (EmptyBox.put ⟨0⟩ 7 (boxNew 5 (emptySt Nat)).2).1) = some 7) :=
  ⟨rfl, take_put_total 0 (boxNew 5 (emptySt Nat)).2 ⟨0⟩ 7
    (boxNew 5 (emptySt Nat)).2 rfl⟩

/-- C9: over a complete lifecycle of one allocation — box a value, take it
out, then either put a value back and drop the resulting box, or drop the
`EmptyBox` directly — the allocation is deallocated exactly once (the
deallocation counter rises by exactly 1 and the address ends unallocated);
moreover `put` itself performs no deallocation, since it forgets the
`EmptyBox` so its drop handler never runs. -/
theorem lifecycle_deallocates_exactly_once (v w : T) (s : St T) :
    Option.map St.deallocs (lifecyclePut v w s) = some (s.deallocs + 1) ∧
    Option.map (fun s1 => s1.heap s.next) (lifecyclePut v w s) = some none ∧
    Option.map St.deallocs (lifecycleDrop v s) = some (s.deallocs + 1) ∧
    Option.map (fun s1 => s1.heap s.next) (lifecycleDrop v s) = some none ∧
    ∀ (e : EmptyBox T) (t : T) (s2 : St T),
      (e.put t s2).2.deallocs = s2.deallocs := by
  refine ⟨?_, ?_, ?_, ?_, fun _ _ _ => rfl⟩ <;>
  · simp only [lifecyclePut, lifecycleDrop, take_boxNew v s]
    simp [EmptyBox.put, EmptyBox.drop, boxUnwrapMove, boxDealloc, memForget,
          boxFromRaw, ptrWrite, boxDrop, runDestructor, boxNew]

/-- C10: `take` and `put` are deterministic and depend only on the
contained value, not on the address or any other state: taking from any two
boxes holding the same value `v` extracts the same value (namely `v`), and
putting the same value `w` into any two `EmptyBox`es yields boxes with the
same contents (namely `w`). -/
theorem take_put_deterministic (p1 p2 : Nat) (v w : T) (s1 s2 : St T)
    (e1 e2 : EmptyBox T) (h1 : s1.heap p1 = some v) (h2 : s2.heap p2 = some v) :
    Option.map (fun r => r.1) (EmptyBox.take p1 s1) =
      Option.map (fun r => r.1) (EmptyBox.take p2 s2) ∧
    (e1.put w s1).2.heap (e1.put w s1).1 = (e2.put w s2).2.heap (e2.put w s2).1 := by
  constructor
  · simp [take_eq p1 v s1 h1, take_eq p2 v s2 h2]
  · simp [EmptyBox.put, ptrWrite, memForget, boxFromRaw]

/-- Witness for C10 at concrete inputs. -/
theorem take_put_deterministic_witness :
    (boxNew 5 (emptySt Nat)).2.heap 0 = some 5 ∧
    (boxNew 9 (boxNew 5 (emptySt Nat)).2).2.heap 1 = some 9 ∧
    (Option.map (fun r => r.1)
        (EmptyBox.take 0 (boxNew 5 (emptySt Nat)).2) =
      Option.map (fun r => r.1)
        (EmptyBox.take 1 (boxNew 5 (boxNew 9 (emptySt Nat)).2).2) ∧
      (EmptyBox.put ⟨0⟩ 7 (boxNew 5 (emptySt Nat)).2).2.heap
          (EmptyBox.put ⟨0⟩ 7 (boxNew 5 (emptySt Nat)).2).1 =
        (EmptyBox.put ⟨1⟩ 7 (boxNew 5 (boxNew 9 (emptySt Nat)).2).2).2.heap
          (EmptyBox.put ⟨1⟩ 7 (boxNew 5 (boxNew 9 (emptySt Nat)).2).2).1) :=
  ⟨rfl, rfl, take_put_deterministic 0 1 5 7 (boxNew 5 (emptySt Nat)).2
    (boxNew 5 (boxNew 9 (emptySt Nat)).2).2 ⟨0⟩ ⟨1⟩ rfl rfl⟩
